import Mathlib

/-!
Shallow embedding of the `ai-navigator` repository's paper-ingestion and
reference-resolution pipeline (`src/pdf_processor.py`), its LLM client
(`src/llama_api_caller.py`), the table-aware backend (`backend/main.py`) and
the code-generation response parser (`src/main.py`).

External capabilities (HTTP fetches, the LLM provider, the `json` module,
the PDF parsing libraries, the file system) are modelled as explicit oracle
functions carried in an `Env` record; Python exceptions become `Except`,
Python `None` becomes `Option`, Python floats that the code only compares
for truthiness become `ℚ`.
-/

namespace AINav

/-! ### Python string primitives -/

/-- Python substring containment, `pat in s`. -/
def pyIn (pat s : String) : Bool := decide (pat.data <:+: s.data)

/-- Python slice `s[:n]` on a string. -/
def pyTake (s : String) (n : Nat) : String := ⟨s.data.take n⟩

/-- Python `s.strip()` (default whitespace strip on both ends). -/
def pyStrip (s : String) : String :=
  ⟨((s.data.dropWhile Char.isWhitespace).reverse.dropWhile Char.isWhitespace).reverse⟩

/-- Splitting a character list at every character satisfying the predicate
(kept structurally recursive so that proofs can evaluate it). -/
def splitCharsGo (p : Char → Bool) : List Char → List Char → List (List Char)
  | [], acc => [acc.reverse]
  | c :: rest, acc =>
    if p c then acc.reverse :: splitCharsGo p rest []
    else splitCharsGo p rest (c :: acc)

/-- Python `s.split()` with no arguments: split on whitespace runs, no empty tokens. -/
def pySplitWs (s : String) : List String :=
  ((splitCharsGo (fun c => c.isWhitespace) s.data []).filter (fun t => t ≠ [])).map
    (fun l => ⟨l⟩)

/-- Fuel-driven splitting of a character list at every non-overlapping
occurrence of a nonempty separator, scanning left to right. -/
def splitOnGo (sep : List Char) : Nat → List Char → List Char → List (List Char)
  | 0, _, acc => [acc.reverse]
  | _ + 1, [], acc => [acc.reverse]
  | fuel + 1, c :: rest, acc =>
    if sep.isPrefixOf (c :: rest) then
      acc.reverse :: splitOnGo sep fuel ((c :: rest).drop sep.length) []
    else splitOnGo sep fuel rest (c :: acc)

/-- Python `s.split(sep)` for a nonempty separator. -/
def pySplitOn (s sep : String) : List String :=
  if sep.data = [] then [s]
  else (splitOnGo sep.data (s.data.length + 1) s.data []).map (fun l => ⟨l⟩)

/-- Python `sep.join(parts)`. -/
def pyJoin (sep : String) : List String → String
  | [] => ""
  | [x] => x
  | x :: y :: rest => x ++ sep ++ pyJoin sep (y :: rest)

/-- Python `s.startswith(pre)`. -/
def pyStartsWith (s pre : String) : Bool := pre.data.isPrefixOf s.data

/-- Python `s.endswith(suf)`. -/
def pyEndsWith (s suf : String) : Bool := suf.data.reverse.isPrefixOf s.data.reverse

/-- Concatenation of a list of strings in order. -/
def strConcat : List String → String
  | [] => ""
  | x :: rest => x ++ strConcat rest

/-- Python `len(s.split())`, the whitespace-delimited token count. -/
def pyWordCount (s : String) : Nat := (pySplitWs s).length

/-- Python `s.split()[0]`: the first whitespace-delimited token, `none` when the
list of tokens is empty (in Python this raises `IndexError`). -/
def pyFirstTok (s : String) : Option String := (pySplitWs s).head?

/-- Python `s.split(sep)[1]`: the chunk between the first and second occurrence
of `sep` (`none` when `sep` does not occur, where Python would raise). -/
def pyAfterFirst (s sep : String) : Option String := (pySplitOn s sep).get? 1

/-- Python `s.splitlines()` for newline-delimited content: like `splitOn "\n"`
but without a trailing empty line. -/
def pySplitlines (s : String) : List String :=
  let parts := pySplitOn s "\n"
  match parts.getLast? with
  | some "" => parts.dropLast
  | _ => parts

/-- Python slice `l[a:b]` on a character list. -/
def pySlice (l : List Char) (a b : Nat) : List Char := (l.drop a).take (b - a)

/-- Python `s.find(c)` for a single character, `none` standing for `-1`. -/
def pyFindChar (s : String) (c : Char) : Option Nat :=
  s.data.findIdx? (fun x => x = c)

/-- Python `s.rfind(c)` for a single character, `none` standing for `-1`. -/
def pyRfindChar (s : String) (c : Char) : Option Nat :=
  match s.data.reverse.findIdx? (fun x => x = c) with
  | some i => some (s.data.length - 1 - i)
  | none => none

/-- Python `s.find(pat)` for a substring, `none` standing for `-1`. -/
def pyFindSub (s pat : String) : Option Nat :=
  (List.range (s.data.length + 1)).find? (fun i => pat.data.isPrefixOf (s.data.drop i))

/-- Python `s.rfind(pat)` for a substring, `none` standing for `-1`. -/
def pyRfindSub (s pat : String) : Option Nat :=
  ((List.range (s.data.length + 1)).reverse).find? (fun i => pat.data.isPrefixOf (s.data.drop i))

/-! ### `PDFProcessor.is_valid_arxiv_id` (src/pdf_processor.py, lines 127-129) -/

/-- Whole-word match of the modern arXiv id regex `\d\x7b4\x7d\.\d\x7b4,5\x7d`. -/
def modernId (l : List Char) : Bool :=
  match l with
  | a :: b :: c :: d :: e :: rest =>
    a.isDigit && b.isDigit && c.isDigit && d.isDigit && e = '.' &&
      (rest.length = 4 || rest.length = 5) && rest.all (fun x => x.isDigit)
  | _ => false

/-- Whole-word match of the legacy arXiv id regex `\d\x7b7\x7d`. -/
def legacyId (l : List Char) : Bool :=
  l.length = 7 && l.all (fun x => x.isDigit)

/-- Python `re.match` anchoring with a final `$`: the `$` also matches just
before a single trailing newline, so a full-match pattern accepts either the
whole string or the whole string minus one trailing `'\n'`. -/
def pyFullAnchor (core : List Char → Bool) (l : List Char) : Bool :=
  core l || (l.getLast? = some '\n' && core l.dropLast)

/-- `PDFProcessor.is_valid_arxiv_id`:
`bool(re.match(r'^\d\x7b4\x7d\.\d\x7b4,5\x7d$', ref_id) or re.match(r'^\d\x7b7\x7d$', ref_id))`. -/
def is_valid_arxiv_id (ref_id : String) : Bool :=
  pyFullAnchor modernId ref_id.data || pyFullAnchor legacyId ref_id.data

/-- Claim-side predicate, stated from the spec's words for comparison: the
*whole string* matches `\d\x7b4\x7d\.\d\x7b4,5\x7d` or `\d\x7b7\x7d`. -/
def specValidArxivId (s : String) : Bool := modernId s.data || legacyId s.data

/-! ### `PDFProcessor.extract_arxiv_pdf_url` (src/pdf_processor.py, lines 32-48) -/

/-- `PDFProcessor.extract_arxiv_pdf_url`. `Except.error` models the uncaught
`IndexError` raised by `split()[0]` when nothing but whitespace follows the
`abs`/`html` marker; `Except.ok none` is Python `return None`. -/
def extract_arxiv_pdf_url (arxiv_url : String) : Except String (Option String) :=
  if pyIn "arxiv.org/pdf/" arxiv_url then Except.ok (some arxiv_url)
  else
    let idStep : Except String (Option String) :=
      if pyIn "arxiv.org/abs/" arxiv_url then
        match pyAfterFirst arxiv_url "arxiv.org/abs/" with
        | some rest =>
          match pyFirstTok rest with
          | some t => Except.ok (some t)
          | none => Except.error "list index out of range"
        | none => Except.error "list index out of range"
      else if pyIn "arxiv.org/html/" arxiv_url then
        match pyAfterFirst arxiv_url "arxiv.org/html/" with
        | some rest =>
          match pyFirstTok rest with
          | some t => Except.ok (some t)
          | none => Except.error "list index out of range"
        | none => Except.error "list index out of range"
      else Except.ok none
    match idStep with
    | Except.error e => Except.error e
    | Except.ok none => Except.ok none
    | Except.ok (some arxiv_id) =>
      Except.ok (some ("https://arxiv.org/pdf/" ++ arxiv_id ++ ".pdf"))

/-! ### `LlamaAPIService` (src/llama_api_caller.py)

The provider call `self.client.chat.completions.create(...)` is modelled by an
oracle `Env.create : CreateArgs → Except String String` returning the reply
text that `_extract_response_data` would place in the `"response"` field (its
token-metric bookkeeping is not needed by any claim).  Temperatures are exact
rationals; Python `x or default` keeps the caller's value exactly when it is
truthy (`None`, `0`, `0.0` and `""` are falsy). -/

/-- Content of one chat message: a plain string, or a text part followed by
image-url parts (the multimodal content array). -/
inductive MsgContent where
  | str (s : String)
  | parts (text : String) (image_urls : List String)
deriving DecidableEq

/-- One role-tagged chat message. -/
structure ChatMessage where
  role : String
  content : MsgContent
deriving DecidableEq

/-- Arguments of one `client.chat.completions.create` call. -/
structure CreateArgs where
  model : String
  messages : List ChatMessage
  max_completion_tokens : Nat
  temperature : ℚ
deriving DecidableEq

/-- Instance state set by `LlamaAPIService.__init__`. -/
structure LlamaAPIService where
  default_model : String
  default_max_tokens : Nat
  default_temperature : ℚ
deriving DecidableEq

/-- The module-level singleton `llama_service = LlamaAPIService()`. -/
def llama_service : LlamaAPIService :=
  { default_model := "Llama-4-Maverick-17B-128E-Instruct-FP8"
    default_max_tokens := 1024
    default_temperature := 7/10 }

/-- Python `x or default` for an optional string argument (`None` and `""` falsy). -/
def pyOrStr (x : Option String) (d : String) : String :=
  match x with
  | none => d
  | some v => if v = "" then d else v

/-- Python `x or default` for an optional int argument (`None` and `0` falsy). -/
def pyOrNat (x : Option Nat) (d : Nat) : Nat :=
  match x with
  | none => d
  | some v => if v = 0 then d else v

/-- Python `x or default` for an optional float argument (`None` and `0.0` falsy). -/
def pyOrRat (x : Option ℚ) (d : ℚ) : ℚ :=
  match x with
  | none => d
  | some v => if v = 0 then d else v

/-- Arguments `LlamaAPIService.text_chat` passes to `create` (lines 16-30). -/
def text_chat_args (svc : LlamaAPIService) (message : String) (model : Option String)
    (max_tokens : Option Nat) (temperature : Option ℚ) : CreateArgs :=
  { model := pyOrStr model svc.default_model
    messages := [{ role := "user", content := MsgContent.str message }]
    max_completion_tokens := pyOrNat max_tokens svc.default_max_tokens
    temperature := pyOrRat temperature svc.default_temperature }

/-- Arguments `LlamaAPIService.text_chat_with_system_prompt` passes to `create`
(lines 34-52). -/
def text_chat_with_system_prompt_args (svc : LlamaAPIService) (system_prompt user_message : String)
    (model : Option String) (max_tokens : Option Nat) (temperature : Option ℚ) : CreateArgs :=
  { model := pyOrStr model svc.default_model
    messages := [{ role := "system", content := MsgContent.str system_prompt },
                 { role := "user", content := MsgContent.str user_message }]
    max_completion_tokens := pyOrNat max_tokens svc.default_max_tokens
    temperature := pyOrRat temperature svc.default_temperature }

/-- Arguments `LlamaAPIService.text_chat_with_response_format` passes to `create`
(lines 54-74): the system prompt is concatenated into the user message. -/
def text_chat_with_response_format_args (svc : LlamaAPIService)
    (system_prompt user_message : String) (model : Option String) (max_tokens : Option Nat)
    (temperature : Option ℚ) : CreateArgs :=
  { model := pyOrStr model svc.default_model
    messages := [{ role := "user",
                   content := MsgContent.str (system_prompt ++ "\n\nUser Request: " ++ user_message) }]
    max_completion_tokens := pyOrNat max_tokens svc.default_max_tokens
    temperature := pyOrRat temperature svc.default_temperature }

/-- Arguments `LlamaAPIService.multimodal_chat` passes to `create` (lines 76-113). -/
def multimodal_chat_args (svc : LlamaAPIService) (message : String) (image_urls : List String)
    (model : Option String) (max_tokens : Option Nat) (temperature : Option ℚ) : CreateArgs :=
  { model := pyOrStr model svc.default_model
    messages := [{ role := "user", content := MsgContent.parts message image_urls }]
    max_completion_tokens := pyOrNat max_tokens svc.default_max_tokens
    temperature := pyOrRat temperature svc.default_temperature }

/-- Arguments `LlamaAPIService.multimodal_chat_with_system_prompt` passes to
`create` (lines 115-154). -/
def multimodal_chat_with_system_prompt_args (svc : LlamaAPIService)
    (system_prompt user_message : String) (image_urls : List String) (model : Option String)
    (max_tokens : Option Nat) (temperature : Option ℚ) : CreateArgs :=
  { model := pyOrStr model svc.default_model
    messages := [{ role := "system", content := MsgContent.str system_prompt },
                 { role := "user", content := MsgContent.parts user_message image_urls }]
    max_completion_tokens := pyOrNat max_tokens svc.default_max_tokens
    temperature := pyOrRat temperature svc.default_temperature }

/-! ### Oracles for the external world -/

/-- A parsed JSON value, as `json.loads` can return it: the resolver reply is
*not* guaranteed to be a list of objects, and the reference loop in
`download_arxiv_paper_and_citations` raises on other shapes. -/
inductive Json where
  | null
  | bool (b : Bool)
  | num (q : ℚ)
  | str (s : String)
  | arr (items : List Json)
  | obj (fields : List (String × Json))

/-- Python truthiness of a parsed JSON value (`None`, `False`, `0`, `""`,
`[]`, `{}` are falsy). -/
def Json.truthy : Json → Bool
  | Json.null => false
  | Json.bool b => b
  | Json.num q => decide (q ≠ 0)
  | Json.str s => decide (s ≠ "")
  | Json.arr items => !items.isEmpty
  | Json.obj fields => !fields.isEmpty

/-- Python `dict` lookup on a parsed JSON object (`json.loads` yields unique
keys, so first-match lookup is exact). -/
def jsonGet (fields : List (String × Json)) (key : String) : Option Json :=
  match fields.find? (fun f => f.1 = key) with
  | some f => some f.2
  | none => none

/-- Python `str(...)` of a parsed JSON value, used only inside generated file
names; containers are abbreviated because no claim depends on the path under
which a malformed title is saved. -/
def Json.pyStr : Json → String
  | Json.null => "None"
  | Json.bool b => if b then "True" else "False"
  | Json.num q => toString q
  | Json.str s => s
  | Json.arr _ => "[...]"
  | Json.obj _ => "\x7b...\x7d"

/-- Python `enumerate(references)` on a parsed JSON value: lists yield their
items, strings their characters, dicts their keys; `None`, booleans and
numbers raise `TypeError` at the loop head. -/
def pyIterRefs : Json → Except String (List Json)
  | Json.arr items => Except.ok items
  | Json.str s => Except.ok (s.data.map (fun c => Json.str ⟨[c]⟩))
  | Json.obj fields => Except.ok (fields.map (fun f => Json.str f.1))
  | Json.null => Except.error "TypeError: NoneType object is not iterable"
  | Json.bool _ => Except.error "TypeError: bool object is not iterable"
  | Json.num _ => Except.error "TypeError: int object is not iterable"

/-- Python `len(references)` for the shapes that survive the loop (the
non-iterable shapes have already raised there, so this value is never
reached for them). -/
def pyLenRefs : Json → Nat
  | Json.arr items => items.length
  | Json.str s => s.data.length
  | Json.obj fields => fields.length
  | _ => 0

/-- JSON object shape read by `backend/main.py` from the model reply. -/
structure ParsedDoc where
  summary : Option String
  sections : Option (List (String × String))
  generatedCode : Option String
  tablesAnalysis : Option String
deriving DecidableEq

/-- JSON object shape read by the `/code_gen` endpoint of `src/main.py`. -/
structure CodeParsed where
  file_name : Option String
  python_code : Option String
  requirements_txt : Option String
  tests_code : Option String
deriving DecidableEq

/-- File-system state: path to file content (binary content modelled as `String`). -/
def Fs : Type := String → Option String

/-- Overwrite one file. -/
def fsWrite (fs : Fs) (p c : String) : Fs := fun q => if q = p then some c else fs q

/-- External capabilities: `net url` is `requests.get(url)` collapsed to its
content (`none` for any raised error or non-2xx status caught by the code),
`create` is the LLM provider (`Except.error` = the SDK call raising),
`jparseRefs` is `json.loads` on the resolver reply, returning an *arbitrary*
JSON value on success (`none` = `JSONDecodeError`); `jparseDoc`/`jparseCode`
are `json.loads` followed by the field accesses those endpoints perform on
the parsed value (`none` = `JSONDecodeError`); `pypdf2` and `fitz` map PDF
bytes to the per-page text list, `Except.error` modelling a parsing
exception. -/
structure Env where
  net : String → Option String
  create : CreateArgs → Except String String
  jparseRefs : String → Option Json
  jparseDoc : String → Option ParsedDoc
  jparseCode : String → Option CodeParsed
  pypdf2 : String → Except String (List String)
  fitz : String → Except String (List String)

/-- `LlamaAPIService.text_chat`, returning the `"response"` field. -/
def text_chat (env : Env) (svc : LlamaAPIService) (message : String) (model : Option String)
    (max_tokens : Option Nat) (temperature : Option ℚ) : Except String String :=
  env.create (text_chat_args svc message model max_tokens temperature)

/-- `LlamaAPIService.text_chat_with_system_prompt`, returning the `"response"` field. -/
def text_chat_with_system_prompt (env : Env) (svc : LlamaAPIService)
    (system_prompt user_message : String) (model : Option String) (max_tokens : Option Nat)
    (temperature : Option ℚ) : Except String String :=
  env.create (text_chat_with_system_prompt_args svc system_prompt user_message model
    max_tokens temperature)

/-! ### `PDFProcessor.download_pdf` (src/pdf_processor.py, lines 17-30) -/

/-- Result of one `download_pdf` call with the file system threaded through and
a flag recording whether `requests.get` was reached. -/
structure DlOut where
  content : Option String
  fs : Fs
  netCalled : Bool

/-- `PDFProcessor.download_pdf`: short-circuits to `None` when the url is
`None` or lacks the substring `arxiv.org`; otherwise performs the network
fetch, persisting the bytes when a save path is given.  Any exception inside
the `try` is caught and becomes `None`. -/
def download_pdf (env : Env) (fs : Fs) (url : Option String) (save_path : Option String) : DlOut :=
  match url with
  | none => { content := none, fs := fs, netCalled := false }
  | some u =>
    if pyIn "arxiv.org" u then
      match env.net u with
      | some content =>
        { content := some content
          fs := (match save_path with | some p => fsWrite fs p content | none => fs)
          netCalled := true }
      | none => { content := none, fs := fs, netCalled := true }
    else { content := none, fs := fs, netCalled := false }

/-- Claim-side predicate, stated from the spec's words for comparison with the
code's substring test: a URL *belongs to the arXiv domain* when its host
component (the part after the scheme separator, up to the first slash) is
`arxiv.org` or a subdomain of it. -/
def belongsToArxivDomain (url : String) : Bool :=
  let afterScheme := match (pySplitOn url "://").get? 1 with
    | some r => r
    | none => url
  let host := (pySplitOn afterScheme "/").headD ""
  host = "arxiv.org" || pyEndsWith host ".arxiv.org"

/-! ### `PDFProcessor.extract_text_from_pdf` (src/pdf_processor.py, lines 50-61) -/

/-- `PDFProcessor.extract_text_from_pdf`: concatenates every page's text plus
a newline; any exception from the PDF library is caught and yields `""`. -/
def extract_text_from_pdf (env : Env) (pdf_content : String) : String :=
  match env.pypdf2 pdf_content with
  | Except.error _ => ""
  | Except.ok pages => pages.foldl (fun text page => text ++ page ++ "\n") ""

/-! ### `PDFProcessor.extract_references_with_llm` (src/pdf_processor.py, lines 63-125) -/

/-- First-pass prompt (line 74), with the paper text appended. -/
def citations_prompt (text : String) : String :=
  "Extract all the arXiv citations from Reference section of the paper including their title, authors and origins. Paper: " ++ text

/-- Second-pass prompt (lines 85-100), with the citation list interpolated. -/
def arxiv_extraction_prompt (citations : String) : String :=
  "   \n        Extract the arXiv ID from the list of citations provided, including preprint arXiv ID. If there is no arXiv ID presented with the list, skip that citations.\n        \n        Here are some examples on arXiv ID format:\n        1. arXiv preprint arXiv:1607.06450, where 1607.06450 is the arXiv ID.\n        2. CoRR, abs/1409.0473, where 1409.0473 is the arXiv ID.\n\n        Then, return a JSON array of objects with \x27title\x27 and \x27ID\x27 fields strictly in the following format, only return the paper title if it\x27s arXiv ID is extracted:\n\n        Output format: [\x7b\"title\": \"Paper Title\", \"ID\": \"arXiv ID\"\x7d]\n\n        DO NOT return any other text.\n\n        List of citations:\n        "
    ++ citations ++ "\n        "

/-- Model of `re.search(r'\[.*\]', s, re.DOTALL)`: with a greedy `.*` this
matches from the first `[` to the last `]`, provided the latter comes after
the former. -/
def bracketSlice (s : String) : Option String :=
  match pyFindChar s '[', pyRfindChar s ']' with
  | some i, some j => if i < j then some ⟨pySlice s.data i (j + 1)⟩ else none
  | _, _ => none

/-- `PDFProcessor.extract_references_with_llm`: extract text, truncate to
50000 characters, run the two LLM passes (an exception from either `create`
call propagates), then parse the second reply — direct `json.loads` first,
then the bracket-slice retry, and the initial empty list when both fail.  On
parse success the function returns *whatever JSON value* `json.loads`
produced; it is the caller's loop that raises on wrong shapes. -/
def extract_references_with_llm (env : Env) (pdf_content : String) :
    Except String Json :=
  let text := extract_text_from_pdf env pdf_content
  let text := if text.length > 50000 then pyTake text 50000 ++ "..." else text
  match text_chat env llama_service (citations_prompt text) none (some 2048) (some (3/10)) with
  | Except.error e => Except.error e
  | Except.ok citations =>
    match text_chat env llama_service (arxiv_extraction_prompt citations) none
      (some 2048) (some (3/10)) with
    | Except.error e => Except.error e
    | Except.ok response_json =>
      Except.ok (match env.jparseRefs response_json with
        | some references => references
        | none =>
          match bracketSlice response_json with
          | some sub =>
            (match env.jparseRefs sub with
              | some references => references
              | none => Json.arr [])
          | none => Json.arr [])

/-! ### `PDFProcessor.download_arxiv_paper_and_citations` (src/pdf_processor.py, lines 131-169) -/

/-- Accumulated output of the reference-download loop.  Titles are whatever
JSON values `reference.get("title", ...)` returned (not necessarily
strings). -/
structure RefLoopOut where
  paths : List String
  titles : List Json
  fs : Fs

/-- The `for i, reference in enumerate(references)` loop (lines 151-162): for
each object entry with a truthy, format-valid string `ID`, attempt the
download; a truthy result appends the path and title, a failed download is
skipped.  The loop *raises* (`Except.error`) on a non-object element
(`reference.get` — `AttributeError`, outside the inner `try`) and on a truthy
non-string `ID` (`re.match` inside `is_valid_arxiv_id` — `TypeError`). -/
def refLoop (env : Env) (fs : Fs) : List (Nat × Json) → Except String RefLoopOut
  | [] => Except.ok { paths := [], titles := [], fs := fs }
  | (i, reference) :: rest =>
    match reference with
    | Json.obj fields =>
      let ref_title := (jsonGet fields "title").getD (Json.str ("reference_" ++ toString i))
      let ref_id := (jsonGet fields "ID").getD Json.null
      if ref_id.truthy then
        match ref_id with
        | Json.str sid =>
          if is_valid_arxiv_id sid then
            let ref_url := "https://arxiv.org/pdf/" ++ sid ++ ".pdf"
            let ref_pdf_path := "downloads/" ++ ref_title.pyStr ++ ".pdf"
            let dl := download_pdf env fs (some ref_url) (some ref_pdf_path)
            match dl.content with
            | some c =>
              if c ≠ "" then
                match refLoop env dl.fs rest with
                | Except.ok out =>
                  Except.ok { paths := ref_pdf_path :: out.paths
                              titles := ref_title :: out.titles
                              fs := out.fs }
                | Except.error e => Except.error e
              else refLoop env dl.fs rest
            | none => refLoop env dl.fs rest
          else refLoop env fs rest
        | _ => Except.error "TypeError: expected string or bytes-like object"
      else refLoop env fs rest
    | _ => Except.error "AttributeError: get"

/-- `PDFProcessor.download_arxiv_paper_and_citations`: resolve the PDF URL,
download the primary paper (mandatory), resolve references via the LLM, run
the best-effort reference loop, and write the manifest file. -/
def download_arxiv_paper_and_citations (env : Env) (fs : Fs) (arxiv_url : String) :
    Except String ((Option String × Nat × List Json) × Fs) :=
  match extract_arxiv_pdf_url arxiv_url with
  | Except.error e => Except.error e
  | Except.ok pdf_url =>
    match pdf_url with
    | none => Except.ok ((none, 0, []), fs)
    | some pdf_url =>
      if pdf_url = "" then Except.ok ((none, 0, []), fs)
      else
        let main_pdf_path := "downloads/main_paper.pdf"
        let dl := download_pdf env fs (some pdf_url) (some main_pdf_path)
        match dl.content with
        | none => Except.ok ((none, 0, []), dl.fs)
        | some main_pdf_content =>
          match extract_references_with_llm env main_pdf_content with
          | Except.error e => Except.error e
          | Except.ok references =>
            match pyIterRefs references with
            | Except.error e => Except.error e
            | Except.ok items =>
              match refLoop env dl.fs items.enum with
              | Except.error e => Except.error e
              | Except.ok out =>
                let all_pdf_paths := main_pdf_path :: out.paths
                let paths_file := "downloads/pdf_paths.txt"
                let fs2 := fsWrite out.fs paths_file (pyJoin "\n" all_pdf_paths)
                Except.ok ((some paths_file, pyLenRefs references, out.titles), fs2)

/-! ### `PDFProcessor.ingest_paper_content` (src/pdf_processor.py, lines 171-189) -/

/-- The per-path loop of `ingest_paper_content`: a failing file read is caught
and skipped; an extracted text contributes itself plus a blank-line separator
and its whitespace token count. -/
def ingestLoop (env : Env) (fs : Fs) : List String → String × Nat
  | [] => ("", 0)
  | pdf_path :: rest =>
    match fs pdf_path with
    | none => ingestLoop env fs rest
    | some pdf_content =>
      let text := extract_text_from_pdf env pdf_content
      let out := ingestLoop env fs rest
      (text ++ "\n\n" ++ out.1, pyWordCount text + out.2)

/-- `PDFProcessor.ingest_paper_content`: read the manifest (an unreadable
manifest raises past this function) and accumulate text and word count over
its paths. -/
def ingest_paper_content (env : Env) (fs : Fs) (paths_file : String) :
    Except String (String × Nat) :=
  match fs paths_file with
  | none => Except.error "No such file or directory"
  | some content => Except.ok (ingestLoop env fs (pySplitlines content))

/-! ### `PDFProcessor.process_arxiv_paper` (src/pdf_processor.py, lines 191-219) -/

/-- Result dictionary of `process_arxiv_paper`: `failure e` is
`\x7b"success": False, "error": e\x7d`, `success ...` carries the five data fields. -/
inductive PipeResult where
  | failure (error : String)
  | success (paper_content : String) (total_word_count : Nat) (num_references : Nat)
      (downloaded_references : List Json) (paths_file : String)

/-- Whether the result dictionary has `"success": True`. -/
def PipeResult.isSuccess : PipeResult → Bool
  | PipeResult.failure _ => false
  | PipeResult.success _ _ _ _ _ => true

/-- The `num_references` field (0 on failure). -/
def PipeResult.numRefs : PipeResult → Nat
  | PipeResult.failure _ => 0
  | PipeResult.success _ _ n _ _ => n

/-- The `downloaded_references` field (empty on failure). -/
def PipeResult.downloadedRefs : PipeResult → List Json
  | PipeResult.failure _ => []
  | PipeResult.success _ _ _ d _ => d

/-- `PDFProcessor.process_arxiv_paper`: the complete pipeline, with the outer
`try` turning any escaped exception into a failure dictionary. -/
def process_arxiv_paper (env : Env) (fs : Fs) (arxiv_url : String) : PipeResult :=
  match download_arxiv_paper_and_citations env fs arxiv_url with
  | Except.error e => PipeResult.failure e
  | Except.ok ((pathsOpt, num_references, downloaded_refs), fs2) =>
    match pathsOpt with
    | none => PipeResult.failure "Invalid URL. Valid example: https://arxiv.org/abs/1706.03762v7"
    | some paths_file =>
      match ingest_paper_content env fs2 paths_file with
      | Except.error e => PipeResult.failure e
      | Except.ok out =>
        PipeResult.success out.1 out.2 num_references downloaded_refs paths_file

/-! ### `backend/main.py` -/

/-- Errors escaping a backend helper: an HTTP error response with status and
detail. -/
inductive BackendErr where
  | http (status : Nat) (detail : String)
deriving DecidableEq

/-- `extract_text_from_pdf_bytes` (backend/main.py, lines 52-59): joins every
page's text; a PyMuPDF exception is caught and re-raised as
`HTTPException(400)` — it does *not* degrade to an empty string. -/
def extract_text_from_pdf_bytes (env : Env) (pdf_bytes : String) : Except BackendErr String :=
  match env.fitz pdf_bytes with
  | Except.ok pages => Except.ok (String.join pages)
  | Except.error _ => Except.error (BackendErr.http 400 "Failed to parse the provided PDF file.")

/-- The JSON repair sequence of `process_document` (backend/main.py, lines
155-166): strip, drop a leading markdown fence (`s[7:-3]` plus strip), then
slice from the first `\x7b` to the last `\x7d` when both exist in that order. -/
def backend_json_repair (raw_content : String) : String :=
  let json_str := pyStrip raw_content
  let json_str :=
    if pyStartsWith json_str "```json" then
      pyStrip ⟨pySlice json_str.data 7 (json_str.data.length - 3)⟩
    else json_str
  match pyFindChar json_str '\x7b', pyRfindChar json_str '\x7d' with
  | some start_index, some end_index =>
    if end_index > start_index then ⟨pySlice json_str.data start_index (end_index + 1)⟩
    else json_str
  | _, _ => json_str

/-- Response model of `/process-document`. -/
structure ProcessingResponse where
  summary : Option String
  sections : Option (List (String × String))
  generatedCode : Option String
  tablesAnalysis : Option String
deriving DecidableEq

/-- The parse step of `process_document` (backend/main.py, lines 152-183),
given the raw completion text.  The second component counts corrective
follow-up LLM calls made while parsing: the source performs none — a parse
failure directly returns the degraded response embedding the raw text. -/
def process_document_parse (env : Env) (raw_content : String) : ProcessingResponse × Nat :=
  let json_str := backend_json_repair raw_content
  match env.jparseDoc json_str with
  | some parsed_data =>
    ({ summary := parsed_data.summary
       sections := parsed_data.sections
       generatedCode := parsed_data.generatedCode
       tablesAnalysis := parsed_data.tablesAnalysis }, 0)
  | none =>
    ({ summary := some ("Error: Failed to parse JSON response from AI. Raw output below:\n\n"
        ++ raw_content)
       sections := none
       generatedCode := none
       tablesAnalysis := none }, 0)

/-! ### `/code_gen` response handling (src/main.py, lines 273-369) -/

/-- Response model of `/code_gen` (the `model`/token-metric passthrough fields
carry no claim content and are omitted). -/
structure CodeGenResponse where
  file_name : String
  python_code : String
  requirements_txt : String
  tests_code : String
deriving DecidableEq

/-- The `MessageTextContentItem` unwrapping (src/main.py, lines 287-294):
slice between `text='` (plus 6) and the last `')` when the wrapper substring
is detected. -/
def unwrap_wrapper (response_text : String) : String :=
  if pyIn "MessageTextContentItem" response_text then
    if pyIn "text=\x27" response_text then
      match pyFindSub response_text "text=\x27" with
      | some f =>
        let start := f + 6
        match pyRfindSub response_text "\x27)" with
        | some stop =>
          if start > 5 && stop > start then ⟨pySlice response_text.data start stop⟩
          else response_text
        | none => response_text
      | none => response_text
    else response_text
  else response_text

/-- System prompt of the corrective follow-up call (src/main.py, line 302). -/
def cleanup_system_prompt : String :=
  "You are a JSON formatter. Return only valid JSON objects without any additional text or wrappers."

/-- User message of the corrective follow-up call (src/main.py, lines 299-303). -/
def cleanup_user_message (response_text : String) : String :=
  "Original response: " ++ response_text
    ++ "\n\nPlease provide ONLY the JSON object with the required fields (file_name, python_code, requirements_txt, tests_code). Do not include any additional text, explanations, or wrappers. Return only valid JSON."

/-- Provider-call arguments of the corrective follow-up (src/main.py, lines
301-307): `max_tokens=2048`, `temperature=0.1`. -/
def cleanup_args (model : Option String) (response_text : String) : CreateArgs :=
  text_chat_with_system_prompt_args llama_service cleanup_system_prompt
    (cleanup_user_message response_text) model (some 2048) (some (1/10))

/-- Default file name `f"main_example_\x7bn\x7d.py"`. -/
def default_file_name (example_number : Nat) : String :=
  "main_example_" ++ toString example_number ++ ".py"

/-- Required-field names missing from the parsed object, in check order. -/
def requiredMissing (parsed : CodeParsed) : List String :=
  (if parsed.python_code = none then ["python_code"] else [])
    ++ (if parsed.requirements_txt = none then ["requirements_txt"] else [])
    ++ (if parsed.tests_code = none then ["tests_code"] else [])

/-- Required-field names present but empty after stripping, in check order. -/
def requiredEmpty (parsed : CodeParsed) : List String :=
  (match parsed.python_code with
    | some v => if pyStrip v = "" then ["python_code"] else []
    | none => [])
    ++ (match parsed.requirements_txt with
      | some v => if pyStrip v = "" then ["requirements_txt"] else []
      | none => [])
    ++ (match parsed.tests_code with
      | some v => if pyStrip v = "" then ["tests_code"] else []
      | none => [])

/-- Response handling of `/code_gen` (src/main.py, lines 273-369), given the
`"response"` text of the initial LLM call.  Returns the response model
together with the list of corrective follow-up create-calls issued (the
Python list reprs inside the two inline error/warning messages are rendered
as comma-separated names).  `Except.error` models an exception escaping to
the endpoint's `except` (HTTP 500) — in this span only the corrective
`create` call can raise. -/
def codegen_parse (env : Env) (response0 : String) (example_number : Nat)
    (model : Option String) : Except String (CodeGenResponse × List CreateArgs) :=
  if pyStrip response0 = "" then
    Except.ok ({ file_name := default_file_name example_number
                 python_code := "# ERROR: The paper content was too large or complex for the model to process.\n# Please try with a shorter paper or a more focused section."
                 requirements_txt := ""
                 tests_code := "" }, [])
  else
    let response_text := unwrap_wrapper response0
    let cleaned : Except String (String × List CreateArgs) :=
      if !(pyStartsWith (pyStrip response_text) "\x7b") then
        let args := cleanup_args model response_text
        match env.create args with
        | Except.ok r => Except.ok (r, [args])
        | Except.error e => Except.error e
      else Except.ok (response_text, [])
    match cleaned with
    | Except.error e => Except.error e
    | Except.ok (response_text, calls) =>
      match env.jparseCode response_text with
      | none =>
        Except.ok ({ file_name := default_file_name example_number
                     python_code := response_text
                     requirements_txt := ""
                     tests_code := "" }, calls)
      | some parsed =>
        let missing_fields := requiredMissing parsed
        if missing_fields ≠ [] then
          Except.ok ({ file_name := default_file_name example_number
                       python_code := "ERROR: Missing required fields: "
                         ++ String.intercalate ", " missing_fields
                       requirements_txt := ""
                       tests_code := "" }, calls)
        else
          let empty_fields := requiredEmpty parsed
          let python_code :=
            if empty_fields ≠ [] then
              "# WARNING: The following fields were empty: "
                ++ String.intercalate ", " empty_fields ++ "\n" ++ parsed.python_code.getD ""
            else parsed.python_code.getD ""
          Except.ok ({ file_name := parsed.file_name.getD (default_file_name example_number)
                       python_code := python_code
                       requirements_txt := parsed.requirements_txt.getD ""
                       tests_code := parsed.tests_code.getD "" }, calls)

/-! ### Sample environments and analysis predicates used by the theorems -/

/-- Sample environment in which the PDF libraries reject the byte string
`"notapdf"` (as both real libraries do on non-PDF bytes) and parse anything
else as a one-page document; the remaining oracles are inert. -/
def envBrokenPdf : Env :=
  { net := fun _ => none
    create := fun _ => Except.error "unused"
    jparseRefs := fun _ => none
    jparseDoc := fun _ => none
    jparseCode := fun _ => none
    pypdf2 := fun b => if b = "notapdf" then Except.error "EOF marker not found"
      else Except.ok [b]
    fitz := fun b => if b = "notapdf" then Except.error "cannot open broken document"
      else Except.ok [b] }

/-- Sample environment whose network oracle would return bytes for any URL,
so that reaching `requests.get` is observable; other oracles inert. -/
def envAnyNet : Env :=
  { net := fun _ => some "%PDF"
    create := fun _ => Except.error "unused"
    jparseRefs := fun _ => none
    jparseDoc := fun _ => none
    jparseCode := fun _ => none
    pypdf2 := fun _ => Except.ok []
    fitz := fun _ => Except.ok [] }

/-- The empty file system. -/
def emptyFs : Fs := fun _ => none

/-- Environment whose provider returns a fixed non-JSON cleanup reply, for
exercising the corrective-call branch. -/
def envCleanup : Env :=
  { net := fun _ => none
    create := fun _ => Except.ok "still not json"
    jparseRefs := fun _ => none
    jparseDoc := fun _ => none
    jparseCode := fun _ => none
    pypdf2 := fun _ => Except.ok []
    fitz := fun _ => Except.ok [] }

/-- File system for the C3 witness: a manifest of four paths, one of which is
missing and one of which holds bytes the PDF library rejects. -/
def witFs : Fs := fun p =>
  if p = "downloads/pdf_paths.txt" then
    some "downloads/main_paper.pdf\ndownloads/A.pdf\ndownloads/missing.pdf\ndownloads/B.pdf"
  else if p = "downloads/main_paper.pdf" then some "alpha beta"
  else if p = "downloads/A.pdf" then some "notapdf"
  else if p = "downloads/B.pdf" then some "gamma"
  else none

/-- Truthiness of one reference download: the network oracle returns nonempty
bytes for the reference's PDF URL. -/
def refDlOk (env : Env) (ref_id : String) : Bool :=
  match env.net ("https://arxiv.org/pdf/" ++ ref_id ++ ".pdf") with
  | some c => c ≠ ""
  | none => false

/-- Whether one loop element cannot make the loop raise: it is an object
whose `ID` value is a string or falsy (a truthy non-string `ID` raises
`TypeError` inside `is_valid_arxiv_id`; a non-object element raises
`AttributeError` at `reference.get`). -/
def refSafe (r : Json) : Bool :=
  match r with
  | Json.obj fields =>
    (match (jsonGet fields "ID").getD Json.null with
      | Json.str _ => true
      | j => !j.truthy)
  | _ => false

/-- Whether the reference loop keeps an element: an object with a truthy,
format-valid string `ID` whose download returns truthy bytes. -/
def refKeep (env : Env) (r : Json) : Bool :=
  match r with
  | Json.obj fields =>
    (match (jsonGet fields "ID").getD Json.null with
      | Json.str sid => (sid ≠ "" && is_valid_arxiv_id sid) && refDlOk env sid
      | _ => false)
  | _ => false

/-- The title value an object element contributes
(`reference.get("title", f"reference_\x7bi\x7d")`). -/
def defTitle (fields : List (String × Json)) (n : Nat) : Json :=
  (jsonGet fields "title").getD (Json.str ("reference_" ++ toString n))

/-- The save path of one reference download. -/
def defPath (fields : List (String × Json)) (n : Nat) : String :=
  "downloads/" ++ (defTitle fields n).pyStr ++ ".pdf"

/-- Environment whose resolver reply parses to the number `123` — valid JSON
of the wrong shape, on which the reference loop raises `TypeError`. -/
def envLlmNumber : Env :=
  { net := fun u => if u = "https://arxiv.org/pdf/1706.03762.pdf" then some "%PDF-main" else none
    create := fun _ => Except.ok "123"
    jparseRefs := fun str => if str = "123" then some (Json.num 123) else none
    jparseDoc := fun _ => none
    jparseCode := fun _ => none
    pypdf2 := fun _ => Except.ok ["page text"]
    fitz := fun _ => Except.ok [] }

/-- Environment for the C1 counterexample: the primary PDF fetch succeeds,
but every LLM provider call raises (e.g. a connection error). -/
def envLlmDown : Env :=
  { net := fun u => if u = "https://arxiv.org/pdf/1706.03762.pdf" then some "%PDF-main" else none
    create := fun _ => Except.error "Connection error"
    jparseRefs := fun _ => none
    jparseDoc := fun _ => none
    jparseCode := fun _ => none
    pypdf2 := fun _ => Except.ok ["page text"]
    fitz := fun _ => Except.ok [] }

/-- Environment for the C1 witness: primary fetch succeeds, the LLM replies
with prose, and every JSON parse of that prose fails. -/
def envLlmProse : Env :=
  { net := fun u => if u = "https://arxiv.org/pdf/1706.03762.pdf" then some "%PDF-main" else none
    create := fun _ => Except.ok "I could not find any references."
    jparseRefs := fun _ => none
    jparseDoc := fun _ => none
    jparseCode := fun _ => none
    pypdf2 := fun _ => Except.ok ["page text"]
    fitz := fun _ => Except.ok [] }

/-- Resolver entry used in the C2 witness whose download succeeds. -/
def refA : Json := Json.obj [("title", Json.str "A"), ("ID", Json.str "1706.03762")]

/-- Resolver entry used in the C2 witness whose download fails. -/
def refB : Json := Json.obj [("title", Json.str "B"), ("ID", Json.str "1409.0473")]

/-- The JSON array the witness provider returns for both resolver passes. -/
def witRefsJson : String :=
  "[\x7b\"title\": \"A\", \"ID\": \"1706.03762\"\x7d, \x7b\"title\": \"B\", \"ID\": \"1409.0473\"\x7d]"

/-- Environment for the C2 witness: the primary fetch and reference A's fetch
succeed, reference B's fetch fails, and the resolver reply parses to
`[refA, refB]`. -/
def envOneRefFails : Env :=
  { net := fun u =>
      if u = "https://arxiv.org/pdf/2401.00001.pdf" then some "%PDF-main"
      else if u = "https://arxiv.org/pdf/1706.03762.pdf" then some "%PDF-A"
      else none
    create := fun _ => Except.ok witRefsJson
    jparseRefs := fun s => if s = witRefsJson then some (Json.arr [refA, refB]) else none
    jparseDoc := fun _ => none
    jparseCode := fun _ => none
    pypdf2 := fun _ => Except.ok ["page text"]
    fitz := fun _ => Except.ok [] }

/-! ### Helper lemmas -/

/-- Substring containment is preserved by appending on the right. -/
theorem pyIn_append_left (pat a b : String) (h : pyIn pat a = true) :
    pyIn pat (a ++ b) = true := by
  simp only [pyIn, decide_eq_true_eq] at h ⊢
  rw [String.data_append]
  exact h.trans (List.infix_append [] a.data b.data)

/-- A string containing a nonempty substring is nonempty. -/
theorem ne_empty_of_pyIn (pat s : String) (hp : pat.data ≠ []) (h : pyIn pat s = true) :
    s ≠ "" := by
  intro hs
  subst hs
  simp only [pyIn, decide_eq_true_eq] at h
  exact hp (List.eq_nil_of_infix_nil h)

/-- Every constructed reference URL contains the substring `arxiv.org`. -/
theorem pyIn_arxiv_refurl (i : String) :
    pyIn "arxiv.org" ("https://arxiv.org/pdf/" ++ i ++ ".pdf") = true :=
  pyIn_append_left _ _ _ (pyIn_append_left _ _ _ (by decide))

/-! ### Claim C5 -/

/-- Claim C5 counterexample: `is_valid_arxiv_id` accepts `"1706.03762\n"`, a
string that does *not* wholly match `\d\x7b4\x7d\.\d\x7b4,5\x7d` or `\d\x7b7\x7d`
(Python's `$` also matches before a single trailing newline), so the predicate
does not return false for every string other than the whole-string matches. -/
theorem C5_is_valid_arxiv_id_counterexample :
    is_valid_arxiv_id "1706.03762\n" = true ∧
    specValidArxivId "1706.03762\n" = false := by
  decide

/-- Claim C5 (amended): `is_valid_arxiv_id` returns true exactly when the
whole string — or, because Python's `$` also matches just before a single
trailing newline, the whole string minus one trailing newline — matches
`\d\x7b4\x7d\.\d\x7b4,5\x7d` or `\d\x7b7\x7d`; in particular it rejects
`12.345`, `abcd.1234`, `123456` and accepts `1706.03762`, `1234567`. -/
theorem C5_is_valid_arxiv_id_amended :
    (∀ s : String, is_valid_arxiv_id s =
      (specValidArxivId s ||
        (s.data.getLast? = some '\n' && specValidArxivId ⟨s.data.dropLast⟩))) ∧
    is_valid_arxiv_id "1706.03762" = true ∧
    is_valid_arxiv_id "1234567" = true ∧
    is_valid_arxiv_id "12.345" = false ∧
    is_valid_arxiv_id "abcd.1234" = false ∧
    is_valid_arxiv_id "123456" = false := by
  refine ⟨fun s => ?_, by decide, by decide, by decide, by decide, by decide⟩
  have h : ∀ (a b g c d : Bool),
      ((a || (g && c)) || (b || (g && d))) = ((a || b) || (g && (c || d))) := by decide
  simp only [is_valid_arxiv_id, specValidArxivId, pyFullAnchor]
  exact h _ _ _ _ _

/-! ### Claim C10 -/

/-- Claim C10: `extract_arxiv_pdf_url` is not total — on a URL where the
`abs`/`html` marker is followed by nothing or only whitespace, the
whitespace-split of the remainder is empty and indexing it raises. -/
theorem C10_extract_arxiv_pdf_url_raises :
    extract_arxiv_pdf_url "https://arxiv.org/abs/" = Except.error "list index out of range" ∧
    extract_arxiv_pdf_url "https://arxiv.org/html/   " =
      Except.error "list index out of range" := by
  constructor <;> rfl

/-! ### Claim C4 -/

/-- Claim C4 counterexample: for the id `1706.03762`, the `/pdf/` shape is
passed through *unchanged* (no `.pdf` suffix appended) while the `/abs/`
shape yields the canonical `.pdf` URL, so the three recognized shapes do not
all produce the same canonical URL for the same id. -/
theorem C4_extract_arxiv_pdf_url_counterexample :
    extract_arxiv_pdf_url "https://arxiv.org/pdf/1706.03762" =
      Except.ok (some "https://arxiv.org/pdf/1706.03762") ∧
    extract_arxiv_pdf_url "https://arxiv.org/abs/1706.03762" =
      Except.ok (some "https://arxiv.org/pdf/1706.03762.pdf") ∧
    ("https://arxiv.org/pdf/1706.03762" : String) ≠ "https://arxiv.org/pdf/1706.03762.pdf" := by
  refine ⟨rfl, rfl, by decide⟩

/-- Claim C4 (amended): a URL containing `arxiv.org/pdf/` is returned
unchanged; `/abs/\x7bid\x7d` and `/html/\x7bid\x7d` URLs (id = the maximal
non-whitespace run after the marker) both yield the canonical
`https://arxiv.org/pdf/\x7bid\x7d.pdf`; a URL containing none of the three
markers yields none. -/
theorem C4_extract_arxiv_pdf_url_amended :
    (∀ url : String, pyIn "arxiv.org/pdf/" url = true →
      extract_arxiv_pdf_url url = Except.ok (some url)) ∧
    (∀ id url : String, url = "https://arxiv.org/abs/" ++ id →
      pyIn "arxiv.org/pdf/" url = false →
      pySplitOn url "arxiv.org/abs/" = ["https://", id] →
      pyFirstTok id = some id →
      extract_arxiv_pdf_url url = Except.ok (some ("https://arxiv.org/pdf/" ++ id ++ ".pdf"))) ∧
    (∀ id url : String, url = "https://arxiv.org/html/" ++ id →
      pyIn "arxiv.org/pdf/" url = false →
      pyIn "arxiv.org/abs/" url = false →
      pySplitOn url "arxiv.org/html/" = ["https://", id] →
      pyFirstTok id = some id →
      extract_arxiv_pdf_url url = Except.ok (some ("https://arxiv.org/pdf/" ++ id ++ ".pdf"))) ∧
    (∀ url : String, pyIn "arxiv.org/pdf/" url = false →
      pyIn "arxiv.org/abs/" url = false → pyIn "arxiv.org/html/" url = false →
      extract_arxiv_pdf_url url = Except.ok none) := by
  refine ⟨fun url h => ?_, fun id url hurl hpdf hsplit htok => ?_,
    fun id url hurl hpdf habs hsplit htok => ?_, fun url h1 h2 h3 => ?_⟩
  · simp [extract_arxiv_pdf_url, h]
  · have habs : pyIn "arxiv.org/abs/" url = true := by
      subst hurl
      exact pyIn_append_left _ _ _ (by decide)
    simp [extract_arxiv_pdf_url, hpdf, habs, pyAfterFirst, hsplit, htok]
  · have hhtml : pyIn "arxiv.org/html/" url = true := by
      subst hurl
      exact pyIn_append_left _ _ _ (by decide)
    simp [extract_arxiv_pdf_url, hpdf, habs, hhtml, pyAfterFirst, hsplit, htok]
  · simp [extract_arxiv_pdf_url, h1, h2, h3]

/-- Claim C4 amended witness: the three branches and the rejection branch
evaluated at concrete URLs. -/
theorem C4_extract_arxiv_pdf_url_amended_witness :
    extract_arxiv_pdf_url "https://arxiv.org/pdf/1706.03762v7.pdf" =
      Except.ok (some "https://arxiv.org/pdf/1706.03762v7.pdf") ∧
    extract_arxiv_pdf_url "https://arxiv.org/abs/1706.03762" =
      Except.ok (some "https://arxiv.org/pdf/1706.03762.pdf") ∧
    extract_arxiv_pdf_url "https://arxiv.org/html/2401.00001" =
      Except.ok (some "https://arxiv.org/pdf/2401.00001.pdf") ∧
    extract_arxiv_pdf_url "https://example.com/paper" = Except.ok none :=
  ⟨C4_extract_arxiv_pdf_url_amended.1 _ (by decide),
   C4_extract_arxiv_pdf_url_amended.2.1 "1706.03762" _ rfl (by decide) (by decide) (by decide),
   C4_extract_arxiv_pdf_url_amended.2.2.1 "2401.00001" _ rfl (by decide) (by decide) (by decide)
     (by decide),
   C4_extract_arxiv_pdf_url_amended.2.2.2 _ (by decide) (by decide) (by decide)⟩

/-! ### Claim C9 -/

/-- Claim C9: in every LLM client variant, a falsy caller-supplied parameter
(`None`, `0`, `0.0`, `""`) is silently replaced by the instance default and a
truthy value is used as given; with the singleton's defaults, temperature
`0.0` becomes `0.7` and `max_tokens` `0` becomes `1024`. -/
theorem C9_falsy_params_use_defaults :
    (∀ svc msg m mt (t : ℚ), (text_chat_args svc msg m mt (some t)).temperature =
      (if t = 0 then svc.default_temperature else t)) ∧
    (∀ svc msg m t (n : Nat), (text_chat_args svc msg m (some n) t).max_completion_tokens =
      (if n = 0 then svc.default_max_tokens else n)) ∧
    (∀ svc msg mt t (md : String), (text_chat_args svc msg (some md) mt t).model =
      (if md = "" then svc.default_model else md)) ∧
    (∀ svc msg m mt, (text_chat_args svc msg m mt none).temperature = svc.default_temperature) ∧
    (∀ svc sp um m mt (t : ℚ),
      (text_chat_with_system_prompt_args svc sp um m mt (some t)).temperature =
        (if t = 0 then svc.default_temperature else t)) ∧
    (∀ svc sp um m t (n : Nat),
      (text_chat_with_system_prompt_args svc sp um m (some n) t).max_completion_tokens =
        (if n = 0 then svc.default_max_tokens else n)) ∧
    (∀ svc sp um m mt (t : ℚ),
      (text_chat_with_response_format_args svc sp um m mt (some t)).temperature =
        (if t = 0 then svc.default_temperature else t)) ∧
    (∀ svc sp um m t (n : Nat),
      (text_chat_with_response_format_args svc sp um m (some n) t).max_completion_tokens =
        (if n = 0 then svc.default_max_tokens else n)) ∧
    (∀ svc msg iu m mt (t : ℚ),
      (multimodal_chat_args svc msg iu m mt (some t)).temperature =
        (if t = 0 then svc.default_temperature else t)) ∧
    (∀ svc msg iu m t (n : Nat),
      (multimodal_chat_args svc msg iu m (some n) t).max_completion_tokens =
        (if n = 0 then svc.default_max_tokens else n)) ∧
    (∀ svc sp um iu m mt (t : ℚ),
      (multimodal_chat_with_system_prompt_args svc sp um iu m mt (some t)).temperature =
        (if t = 0 then svc.default_temperature else t)) ∧
    (∀ svc sp um iu m t (n : Nat),
      (multimodal_chat_with_system_prompt_args svc sp um iu m (some n) t).max_completion_tokens =
        (if n = 0 then svc.default_max_tokens else n)) ∧
    (∀ msg m mt, (text_chat_args llama_service msg m mt (some 0)).temperature = 7/10) ∧
    (∀ msg m t, (text_chat_args llama_service msg m (some 0) t).max_completion_tokens = 1024) := by
  refine ⟨fun _ _ _ _ _ => rfl, fun _ _ _ _ _ => rfl, fun _ _ _ _ _ => rfl,
    fun _ _ _ _ => rfl, fun _ _ _ _ _ _ => rfl, fun _ _ _ _ _ _ => rfl,
    fun _ _ _ _ _ _ => rfl, fun _ _ _ _ _ _ => rfl, fun _ _ _ _ _ _ => rfl,
    fun _ _ _ _ _ _ => rfl, fun _ _ _ _ _ _ _ => rfl, fun _ _ _ _ _ _ _ => rfl,
    fun _ _ _ => by norm_num [text_chat_args, pyOrRat, llama_service],
    fun _ _ _ => rfl⟩

/-! ### Claim C7 -/

/-- Claim C7 counterexample: when the underlying parse throws, the backend
variant `extract_text_from_pdf_bytes` does not return the empty string — it
raises an `HTTPException(400)` past its boundary, so the claimed totality of
*both* variants fails. -/
theorem C7_extract_text_counterexample :
    extract_text_from_pdf_bytes envBrokenPdf "notapdf" =
      Except.error (BackendErr.http 400 "Failed to parse the provided PDF file.") ∧
    extract_text_from_pdf_bytes envBrokenPdf "notapdf" ≠ Except.ok "" := by
  refine ⟨rfl, fun h => ?_⟩
  rw [show extract_text_from_pdf_bytes envBrokenPdf "notapdf" =
    Except.error (BackendErr.http 400 "Failed to parse the provided PDF file.") from rfl] at h
  exact Except.noConfusion h

/-- Claim C7 (amended): the pipeline variant is total — a throwing PDF parse
yields the empty string, a successful parse yields the pages' text in order —
but the backend variant raises `HTTPException(400)` past its boundary when
the parse throws. -/
theorem C7_extract_text_amended :
    (∀ env b, (env.pypdf2 b).isOk = false → extract_text_from_pdf env b = "") ∧
    (∀ env b pages, env.pypdf2 b = Except.ok pages →
      extract_text_from_pdf env b = pages.foldl (fun text page => text ++ page ++ "\n") "") ∧
    (∀ env b, (env.fitz b).isOk = false →
      extract_text_from_pdf_bytes env b =
        Except.error (BackendErr.http 400 "Failed to parse the provided PDF file.")) ∧
    (∀ env b pages, env.fitz b = Except.ok pages →
      extract_text_from_pdf_bytes env b = Except.ok (String.join pages)) := by
  refine ⟨fun env b h => ?_, fun env b pages h => ?_, fun env b h => ?_, fun env b pages h => ?_⟩
  · unfold extract_text_from_pdf
    cases he : env.pypdf2 b with
    | error e => rfl
    | ok v => rw [he] at h; simp [Except.isOk, Except.toBool] at h
  · unfold extract_text_from_pdf
    rw [h]
  · unfold extract_text_from_pdf_bytes
    cases he : env.fitz b with
    | error e => rfl
    | ok v => rw [he] at h; simp [Except.isOk, Except.toBool] at h
  · unfold extract_text_from_pdf_bytes
    rw [h]

/-- Claim C7 amended witness: both variants evaluated on unparseable and on
parseable bytes in `envBrokenPdf`. -/
theorem C7_extract_text_amended_witness :
    extract_text_from_pdf envBrokenPdf "notapdf" = "" ∧
    extract_text_from_pdf envBrokenPdf "page" = "page\n" ∧
    extract_text_from_pdf_bytes envBrokenPdf "notapdf" =
      Except.error (BackendErr.http 400 "Failed to parse the provided PDF file.") ∧
    extract_text_from_pdf_bytes envBrokenPdf "page" = Except.ok "page" :=
  ⟨C7_extract_text_amended.1 envBrokenPdf "notapdf" rfl,
   (C7_extract_text_amended.2.1 envBrokenPdf "page" ["page"] rfl).trans rfl,
   C7_extract_text_amended.2.2.1 envBrokenPdf "notapdf" rfl,
   (C7_extract_text_amended.2.2.2 envBrokenPdf "page" ["page"] rfl).trans rfl⟩

/-! ### Claim C8 -/

/-- Claim C8 counterexample: `download_pdf` gates the fetch on the *substring*
`arxiv.org`, not on the URL's domain, so a URL outside the arXiv domain that
merely contains the substring in its path does get a network call. -/
theorem C8_download_pdf_counterexample :
    belongsToArxivDomain "https://evil.example/arxiv.org/paper.pdf" = false ∧
    (download_pdf envAnyNet emptyFs (some "https://evil.example/arxiv.org/paper.pdf")
      none).netCalled = true ∧
    (download_pdf envAnyNet emptyFs (some "https://evil.example/arxiv.org/paper.pdf")
      none).content = some "%PDF" := by
  refine ⟨by decide, by decide, rfl⟩

/-- Claim C8 (amended): `download_pdf` short-circuits to failure without a
network call exactly when the URL is missing or lacks the substring
`arxiv.org`; it attempts the network fetch exactly when the URL contains that
substring — a condition implied by, but strictly weaker than, belonging to
the arXiv domain. -/
theorem C8_download_pdf_amended :
    (∀ env fs (u : String) sp, pyIn "arxiv.org" u = false →
      (download_pdf env fs (some u) sp).content = none ∧
      (download_pdf env fs (some u) sp).netCalled = false) ∧
    (∀ env fs sp, (download_pdf env fs none sp).content = none ∧
      (download_pdf env fs none sp).netCalled = false) ∧
    (∀ env fs u sp, pyIn "arxiv.org" u = true →
      (download_pdf env fs (some u) sp).netCalled = true) := by
  refine ⟨fun env fs u sp h => ?_, fun env fs sp => ⟨rfl, rfl⟩, fun env fs u sp h => ?_⟩
  · constructor <;> simp [download_pdf, h]
  · simp only [download_pdf, h]
    cases env.net u <;> rfl

/-- Claim C8 amended witness: concrete urls on both sides of the substring
test. -/
theorem C8_download_pdf_amended_witness :
    (download_pdf envAnyNet emptyFs (some "https://example.com/paper.pdf") none).netCalled
      = false ∧
    (download_pdf envAnyNet emptyFs none none).netCalled = false ∧
    (download_pdf envAnyNet emptyFs (some "https://arxiv.org/pdf/1706.03762.pdf")
      none).netCalled = true :=
  ⟨(C8_download_pdf_amended.1 envAnyNet emptyFs "https://example.com/paper.pdf" none
      (by decide)).2,
   (C8_download_pdf_amended.2.1 envAnyNet emptyFs none).2,
   C8_download_pdf_amended.2.2 envAnyNet emptyFs "https://arxiv.org/pdf/1706.03762.pdf" none
     (by decide)⟩

/-! ### Claim C6 -/

/-- Claim C6 counterexample: a structured-output reply that fails JSON parsing
after the backend repair steps triggers *zero* corrective follow-up LLM calls
— the backend surfaces the raw text immediately — not the claimed exactly
one. -/
theorem C6_synthesizer_retry_counterexample :
    envAnyNet.jparseDoc (backend_json_repair "The model replied in prose, not JSON.") = none ∧
    (process_document_parse envAnyNet "The model replied in prose, not JSON.").2 = 0 ∧
    (process_document_parse envAnyNet "The model replied in prose, not JSON.").1.summary =
      some ("Error: Failed to parse JSON response from AI. Raw output below:\n\nThe model replied in prose, not JSON.") := by
  exact ⟨rfl, rfl, rfl⟩

/-- Claim C6 (amended): the backend synthesizer issues no corrective
follow-up call at all — a reply failing JSON parsing after its repair steps
is surfaced raw immediately, without raising.  The code-generation parser
issues at most one corrective follow-up call, triggered not by a parse
failure but by the unwrapped, stripped reply not starting with a brace; the
follow-up uses temperature 0.1, `max_tokens` 2048 and a return-only-JSON
instruction, and its output is JSON-parsed directly (no repair steps are
reapplied); a final parse failure surfaces the raw text as the degraded
`python_code` with no exception. -/
theorem C6_synthesizer_retry_amended :
    (∀ env raw, (process_document_parse env raw).2 = 0) ∧
    (∀ env raw, env.jparseDoc (backend_json_repair raw) = none →
      process_document_parse env raw =
        ({ summary := some ("Error: Failed to parse JSON response from AI. Raw output below:\n\n"
             ++ raw)
           sections := none
           generatedCode := none
           tablesAnalysis := none }, 0)) ∧
    (∀ env resp ex m, pyStrip resp ≠ "" →
      pyStartsWith (pyStrip (unwrap_wrapper resp)) "\x7b" = true →
      env.jparseCode (unwrap_wrapper resp) = none →
      codegen_parse env resp ex m = Except.ok
        ({ file_name := default_file_name ex
           python_code := unwrap_wrapper resp
           requirements_txt := ""
           tests_code := "" }, [])) ∧
    (∀ env resp ex m r, pyStrip resp ≠ "" →
      pyStartsWith (pyStrip (unwrap_wrapper resp)) "\x7b" = false →
      env.create (cleanup_args m (unwrap_wrapper resp)) = Except.ok r →
      env.jparseCode r = none →
      codegen_parse env resp ex m = Except.ok
        ({ file_name := default_file_name ex
           python_code := r
           requirements_txt := ""
           tests_code := "" }, [cleanup_args m (unwrap_wrapper resp)])) ∧
    (∀ m rt, (cleanup_args m rt).temperature = 1/10 ∧
      (cleanup_args m rt).max_completion_tokens = 2048) := by
  refine ⟨fun env raw => ?_, fun env raw h => ?_, fun env resp ex m h0 hstart hparse => ?_,
    fun env resp ex m r h0 hstart hcreate hparse => ?_,
    fun m rt => ⟨by norm_num [cleanup_args, text_chat_with_system_prompt_args, pyOrRat], rfl⟩⟩
  · simp only [process_document_parse]
    split <;> rfl
  · simp [process_document_parse, h]
  · simp [codegen_parse, h0, hstart, hparse]
  · simp [codegen_parse, h0, hstart, hcreate, hparse]

/-- Claim C6 amended witness: the degraded backend path, the no-retry
brace-led path, and the one-retry path at concrete replies. -/
theorem C6_synthesizer_retry_amended_witness :
    process_document_parse envAnyNet "plain text reply" =
      ({ summary := some ("Error: Failed to parse JSON response from AI. Raw output below:\n\nplain text reply")
         sections := none
         generatedCode := none
         tablesAnalysis := none }, 0) ∧
    codegen_parse envAnyNet "\x7b not valid json" 1 none = Except.ok
      ({ file_name := "main_example_1.py"
         python_code := "\x7b not valid json"
         requirements_txt := ""
         tests_code := "" }, []) ∧
    codegen_parse envCleanup "Sure! Here is the JSON you asked for." 2 none = Except.ok
      ({ file_name := "main_example_2.py"
         python_code := "still not json"
         requirements_txt := ""
         tests_code := "" },
        [cleanup_args none (unwrap_wrapper "Sure! Here is the JSON you asked for.")]) :=
  ⟨C6_synthesizer_retry_amended.2.1 envAnyNet "plain text reply" rfl,
   C6_synthesizer_retry_amended.2.2.1 envAnyNet "\x7b not valid json" 1 none (by decide)
     (by decide) rfl,
   C6_synthesizer_retry_amended.2.2.2.1 envCleanup "Sure! Here is the JSON you asked for." 2 none
     "still not json" (by decide) (by decide) rfl rfl⟩

/-! ### Claim C3 -/

/-- A failing PDF parse degrades the pipeline text extraction to the empty
string. -/
theorem extract_text_err (env : Env) (b : String) (h : (env.pypdf2 b).isOk = false) :
    extract_text_from_pdf env b = "" := by
  unfold extract_text_from_pdf
  cases he : env.pypdf2 b with
  | error e => rfl
  | ok v => rw [he] at h; simp [Except.isOk, Except.toBool] at h

/-- The ingestion loop computes the concatenation of each readable file's
extracted text (with its blank-line separator) and the sum of their word
counts, in order; unreadable files are skipped entirely. -/
theorem ingestLoop_spec (env : Env) (fs : Fs) : ∀ paths : List String,
    ingestLoop env fs paths =
      (strConcat (paths.filterMap (fun p =>
          match fs p with
          | none => none
          | some c => some (extract_text_from_pdf env c ++ "\n\n"))),
        (paths.map (fun p =>
          match fs p with
          | none => 0
          | some c => pyWordCount (extract_text_from_pdf env c))).sum) := by
  intro paths
  induction paths with
  | nil => rfl
  | cons p rest ih =>
    cases hp : fs p with
    | none => simp [ingestLoop, hp, ih]
    | some c => simp [ingestLoop, hp, ih, strConcat]

/-- Claim C3: for every readable manifest, the corpus word count equals the
sum, over the manifest paths in order, of the whitespace-split token counts
of each successfully extracted document's text, and the corpus is the
in-order concatenation of those texts (with separators); a file whose read
fails contributes nothing at all, and a document whose PDF parse fails has
extracted text `""`, contributing zero words and no text. -/
theorem C3_ingest_word_count (env : Env) (fs : Fs) (paths_file content : String)
    (h : fs paths_file = some content) :
    ingest_paper_content env fs paths_file = Except.ok
      (strConcat ((pySplitlines content).filterMap (fun p =>
          match fs p with
          | none => none
          | some c => some (extract_text_from_pdf env c ++ "\n\n"))),
        ((pySplitlines content).map (fun p =>
          match fs p with
          | none => 0
          | some c => pyWordCount (extract_text_from_pdf env c))).sum) ∧
    (∀ b, (env.pypdf2 b).isOk = false →
      extract_text_from_pdf env b = "" ∧ pyWordCount (extract_text_from_pdf env b) = 0) := by
  constructor
  · unfold ingest_paper_content
    rw [h]
    exact congrArg Except.ok (ingestLoop_spec env fs (pySplitlines content))
  · intro b hb
    refine ⟨extract_text_err env b hb, ?_⟩
    rw [extract_text_err env b hb]
    rfl

/-- Claim C3 witness: `"alpha beta"` extracts to two words, the unparseable
file contributes zero words, the missing file is skipped, `"gamma"`
contributes one: total word count 3. -/
theorem C3_ingest_word_count_witness :
    witFs "downloads/pdf_paths.txt" =
      some "downloads/main_paper.pdf\ndownloads/A.pdf\ndownloads/missing.pdf\ndownloads/B.pdf" ∧
    ingest_paper_content envBrokenPdf witFs "downloads/pdf_paths.txt" =
      Except.ok ("alpha beta\n\n\n\n\ngamma\n\n\n", 3) ∧
    extract_text_from_pdf envBrokenPdf "notapdf" = "" :=
  ⟨rfl,
   ((C3_ingest_word_count envBrokenPdf witFs "downloads/pdf_paths.txt" _ rfl).1).trans rfl,
   ((C3_ingest_word_count envBrokenPdf witFs "downloads/pdf_paths.txt" _ rfl).2 "notapdf" rfl).1⟩

/-! ### Pipeline lemmas for claims C1 and C2 -/

/-- A successful `Except` is some `ok`. -/
theorem isOk_exists {α : Type} {e : Except String α} (h : e.isOk = true) :
    ∃ v, e = Except.ok v := by
  cases e with
  | error e => simp [Except.isOk, Except.toBool] at h
  | ok v => exact ⟨v, rfl⟩

/-- Containment of a stronger pattern implies containment of any infix of it. -/
theorem pyIn_of_pyIn_stronger (pat1 pat2 s : String)
    (hsub : pat1.data <:+: pat2.data) (h : pyIn pat2 s = true) : pyIn pat1 s = true := by
  simp only [pyIn, decide_eq_true_eq] at h ⊢
  exact hsub.trans h

/-- Shape of a URL successfully produced by the normalizer: either the
pass-through branch fired, or the URL was rebuilt around an extracted id. -/
theorem extract_ok_some_cases (url p : String)
    (h : extract_arxiv_pdf_url url = Except.ok (some p)) :
    (pyIn "arxiv.org/pdf/" url = true ∧ p = url) ∨
      ∃ t, p = "https://arxiv.org/pdf/" ++ t ++ ".pdf" := by
  unfold extract_arxiv_pdf_url at h
  by_cases hpdf : pyIn "arxiv.org/pdf/" url = true
  · simp [hpdf] at h
    exact Or.inl ⟨hpdf, h.symm⟩
  · simp only [hpdf, Bool.false_eq_true, if_false] at h
    by_cases habs : pyIn "arxiv.org/abs/" url = true
    · simp only [habs, if_true] at h
      cases hafter : pyAfterFirst url "arxiv.org/abs/" with
      | none => rw [hafter] at h; exact absurd h (by simp)
      | some rest =>
        rw [hafter] at h
        dsimp only at h
        cases htok : pyFirstTok rest with
        | none => rw [htok] at h; exact absurd h (by simp)
        | some t =>
          rw [htok] at h
          simp at h
          exact Or.inr ⟨t, h.symm⟩
    · simp only [habs, Bool.false_eq_true, if_false] at h
      by_cases hhtml : pyIn "arxiv.org/html/" url = true
      · simp only [hhtml, if_true] at h
        cases hafter : pyAfterFirst url "arxiv.org/html/" with
        | none => rw [hafter] at h; exact absurd h (by simp)
        | some rest =>
          rw [hafter] at h
          dsimp only at h
          cases htok : pyFirstTok rest with
          | none => rw [htok] at h; exact absurd h (by simp)
          | some t =>
            rw [htok] at h
            simp at h
            exact Or.inr ⟨t, h.symm⟩
      · simp only [hhtml, Bool.false_eq_true, if_false] at h
        exact absurd h (by simp)

/-- A URL produced by the normalizer contains `arxiv.org` and is nonempty, so
the subsequent primary download reaches the network oracle. -/
theorem extract_ok_some_props (url p : String)
    (h : extract_arxiv_pdf_url url = Except.ok (some p)) :
    pyIn "arxiv.org" p = true ∧ p ≠ "" := by
  have hin : pyIn "arxiv.org" p = true := by
    rcases extract_ok_some_cases url p h with ⟨hpdf, hp⟩ | ⟨t, hp⟩
    · subst hp
      exact pyIn_of_pyIn_stronger _ _ _ (by decide) hpdf
    · subst hp
      exact pyIn_arxiv_refurl t
  exact ⟨hin, ne_empty_of_pyIn _ _ (by decide) hin⟩

/-- Writing a file makes it readable. -/
theorem fsWrite_same (fs : Fs) (p c : String) : fsWrite fs p c p = some c := by
  simp [fsWrite]

/-- A download whose URL passes the substring test and whose fetch returns
content succeeds and persists the bytes. -/
theorem download_pdf_ok (env : Env) (fs : Fs) (u p c : String)
    (hin : pyIn "arxiv.org" u = true) (hc : env.net u = some c) :
    download_pdf env fs (some u) (some p) =
      { content := some c, fs := fsWrite fs p c, netCalled := true } := by
  simp [download_pdf, hin, hc]

/-- When both provider calls return, reference extraction cannot raise. -/
theorem extract_refs_ok (env : Env) (mc : String)
    (hllm : ∀ a, (env.create a).isOk = true) :
    ∃ refs, extract_references_with_llm env mc = Except.ok refs := by
  unfold extract_references_with_llm text_chat
  dsimp only
  split
  case h_1 e heq =>
    have h := congrArg Except.isOk heq
    rw [hllm _] at h
    simp [Except.isOk, Except.toBool] at h
  case h_2 citations heq =>
    split
    case h_1 e heq2 =>
      have h := congrArg Except.isOk heq2
      rw [hllm _] at h
      simp [Except.isOk, Except.toBool] at h
    case h_2 response_json heq2 => exact ⟨_, rfl⟩

/-- When both provider calls return but every JSON parse fails, reference
extraction recovers to the empty list. -/
theorem extract_refs_nil (env : Env) (mc : String)
    (hllm : ∀ a, (env.create a).isOk = true)
    (hjp : ∀ s, env.jparseRefs s = none) :
    extract_references_with_llm env mc = Except.ok (Json.arr []) := by
  unfold extract_references_with_llm text_chat
  dsimp only
  split
  case h_1 e heq =>
    have h := congrArg Except.isOk heq
    rw [hllm _] at h
    simp [Except.isOk, Except.toBool] at h
  case h_2 citations heq =>
    split
    case h_1 e heq2 =>
      have h := congrArg Except.isOk heq2
      rw [hllm _] at h
      simp [Except.isOk, Except.toBool] at h
    case h_2 response_json heq2 =>
      rw [hjp]
      cases bracketSlice response_json <;> simp [hjp]

/-- Iteration preserves the element count `len(references)` reports for every
iterable shape. -/
theorem pyIterRefs_length (j : Json) (items : List Json)
    (h : pyIterRefs j = Except.ok items) : items.length = pyLenRefs j := by
  cases j with
  | arr its => cases h; simp [pyLenRefs]
  | str str => cases h; simp [pyLenRefs]
  | obj fields => cases h; simp [pyLenRefs]
  | null => exact absurd h (by simp [pyIterRefs])
  | bool b => exact absurd h (by simp [pyIterRefs])
  | num q => exact absurd h (by simp [pyIterRefs])

/-- The full value of `download_arxiv_paper_and_citations` when the URL
normalizes, the primary fetch returns bytes, reference extraction returns,
the reply is iterable, and the loop raises no shape error. -/
theorem download_arxiv_ok (env : Env) (fs : Fs) (url purl mc : String) (j : Json)
    (items : List Json) (out : RefLoopOut)
    (hx : extract_arxiv_pdf_url url = Except.ok (some purl))
    (hnet : env.net purl = some mc)
    (hrefs : extract_references_with_llm env mc = Except.ok j)
    (hiter : pyIterRefs j = Except.ok items)
    (hloop : refLoop env (fsWrite fs "downloads/main_paper.pdf" mc) items.enum
      = Except.ok out) :
    download_arxiv_paper_and_citations env fs url =
      Except.ok ((some "downloads/pdf_paths.txt", pyLenRefs j, out.titles),
        fsWrite out.fs "downloads/pdf_paths.txt"
          (pyJoin "\n" ("downloads/main_paper.pdf" :: out.paths))) := by
  obtain ⟨hin, hne⟩ := extract_ok_some_props url purl hx
  simp only [download_arxiv_paper_and_citations, hx, if_neg hne,
    download_pdf_ok env fs purl "downloads/main_paper.pdf" mc hin hnet, hrefs, hiter, hloop]

/-- `download_arxiv_paper_and_citations` propagates a `TypeError` raised at
the loop head by a non-iterable resolver value. -/
theorem download_arxiv_iter_err (env : Env) (fs : Fs) (url purl mc : String) (j : Json)
    (e : String)
    (hx : extract_arxiv_pdf_url url = Except.ok (some purl))
    (hnet : env.net purl = some mc)
    (hrefs : extract_references_with_llm env mc = Except.ok j)
    (hiter : pyIterRefs j = Except.error e) :
    download_arxiv_paper_and_citations env fs url = Except.error e := by
  obtain ⟨hin, hne⟩ := extract_ok_some_props url purl hx
  simp only [download_arxiv_paper_and_citations, hx, if_neg hne,
    download_pdf_ok env fs purl "downloads/main_paper.pdf" mc hin hnet, hrefs, hiter]

/-- `download_arxiv_paper_and_citations` propagates a shape error raised
inside the reference loop. -/
theorem download_arxiv_loop_err (env : Env) (fs : Fs) (url purl mc : String) (j : Json)
    (items : List Json) (e : String)
    (hx : extract_arxiv_pdf_url url = Except.ok (some purl))
    (hnet : env.net purl = some mc)
    (hrefs : extract_references_with_llm env mc = Except.ok j)
    (hiter : pyIterRefs j = Except.ok items)
    (hloop : refLoop env (fsWrite fs "downloads/main_paper.pdf" mc) items.enum
      = Except.error e) :
    download_arxiv_paper_and_citations env fs url = Except.error e := by
  obtain ⟨hin, hne⟩ := extract_ok_some_props url purl hx
  simp only [download_arxiv_paper_and_citations, hx, if_neg hne,
    download_pdf_ok env fs purl "downloads/main_paper.pdf" mc hin hnet, hrefs, hiter, hloop]

/-- Success, reference count and downloaded-title list of the full pipeline
when the resolver value iterates and the loop completes. -/
theorem process_success_of (env : Env) (fs : Fs) (url purl mc : String) (j : Json)
    (items : List Json) (out : RefLoopOut)
    (hx : extract_arxiv_pdf_url url = Except.ok (some purl))
    (hnet : env.net purl = some mc)
    (hrefs : extract_references_with_llm env mc = Except.ok j)
    (hiter : pyIterRefs j = Except.ok items)
    (hloop : refLoop env (fsWrite fs "downloads/main_paper.pdf" mc) items.enum
      = Except.ok out) :
    (process_arxiv_paper env fs url).isSuccess = true ∧
    (process_arxiv_paper env fs url).numRefs = pyLenRefs j ∧
    (process_arxiv_paper env fs url).downloadedRefs = out.titles := by
  have hd := download_arxiv_ok env fs url purl mc j items out hx hnet hrefs hiter hloop
  simp only [process_arxiv_paper, hd, ingest_paper_content, fsWrite_same]
  exact ⟨rfl, rfl, rfl⟩

/-- The full pipeline converts a propagated shape error into the failure
dictionary. -/
theorem process_failure_of (env : Env) (fs : Fs) (url : String) (e : String)
    (hd : download_arxiv_paper_and_citations env fs url = Except.error e) :
    process_arxiv_paper env fs url = PipeResult.failure e := by
  simp only [process_arxiv_paper, hd]

/-- When the reference loop completes, it has appended at most one title per
element. -/
theorem refLoop_titles_le (env : Env) : ∀ (l : List (Nat × Json)) (fs : Fs) (out : RefLoopOut),
    refLoop env fs l = Except.ok out → out.titles.length ≤ l.length := by
  intro l
  induction l with
  | nil =>
    intro fs out h
    cases h
    exact Nat.le_refl 0
  | cons hd tl ih =>
    intro fs out h
    obtain ⟨i, r⟩ := hd
    simp only [refLoop] at h
    split at h
    · split at h
      · split at h
        · split at h
          · split at h
            · split at h
              · split at h
                · rename_i out2 heq
                  cases h
                  simpa using Nat.succ_le_succ (ih _ _ heq)
                · exact absurd h (by simp)
              · exact (ih _ _ h).trans (Nat.le_succ _)
            · exact (ih _ _ h).trans (Nat.le_succ _)
          · exact (ih _ _ h).trans (Nat.le_succ _)
        · exact absurd h (by simp)
      · exact (ih _ _ h).trans (Nat.le_succ _)
    · exact absurd h (by simp)

/-- An element the loop keeps cannot make the loop raise. -/
theorem refSafe_of_refKeep (env : Env) (r : Json) (h : refKeep env r = true) :
    refSafe r = true := by
  cases r with
  | obj fields =>
    simp only [refKeep] at h
    simp only [refSafe]
    cases hid : (jsonGet fields "ID").getD Json.null <;> rw [hid] at h <;> simp_all
  | null => simp [refKeep] at h
  | bool b => simp [refKeep] at h
  | num q => simp [refKeep] at h
  | str str => simp [refKeep] at h
  | arr items => simp [refKeep] at h

/-- On a list of shape-safe elements the reference loop completes, and the
number of titles it collects equals the number of elements it keeps,
independent of the enumeration offset and the file-system state threaded
through the downloads. -/
theorem refLoop_safe_count (env : Env) : ∀ (l : List Json) (n : Nat) (fs : Fs),
    (∀ r ∈ l, refSafe r = true) →
    ∃ out, refLoop env fs (List.enumFrom n l) = Except.ok out ∧
      out.titles.length = (l.filter (refKeep env)).length := by
  intro l
  induction l with
  | nil => intro n fs _; exact ⟨_, rfl, rfl⟩
  | cons r rest ih =>
    intro n fs hsafe
    have hr := hsafe r (List.mem_cons_self r rest)
    have hrest : ∀ x ∈ rest, refSafe x = true :=
      fun x hx => hsafe x (List.mem_cons_of_mem r hx)
    show ∃ out, refLoop env fs ((n, r) :: List.enumFrom (n + 1) rest) = Except.ok out ∧
      _ = (List.filter (refKeep env) (r :: rest)).length
    rw [List.filter_cons]
    cases r with
    | obj fields =>
      cases hid : (jsonGet fields "ID").getD Json.null with
      | str sid =>
        by_cases hsid : sid = ""
        · subst hsid
          have hstep : refLoop env fs ((n, Json.obj fields) :: List.enumFrom (n + 1) rest)
              = refLoop env fs (List.enumFrom (n + 1) rest) := by
            simp [refLoop, hid, Json.truthy]
          obtain ⟨out, hout, hlen⟩ := ih (n + 1) fs hrest
          exact ⟨out, hstep.trans hout, by simp [refKeep, hid, hlen]⟩
        · by_cases hval : is_valid_arxiv_id sid = true
          · have hdl := pyIn_arxiv_refurl sid
            cases hnet : env.net ("https://arxiv.org/pdf/" ++ sid ++ ".pdf") with
            | none =>
              have hstep : refLoop env fs ((n, Json.obj fields) :: List.enumFrom (n + 1) rest)
                  = refLoop env fs (List.enumFrom (n + 1) rest) := by
                simp [refLoop, hid, Json.truthy, hsid, hval, download_pdf, hdl, hnet]
              obtain ⟨out, hout, hlen⟩ := ih (n + 1) fs hrest
              refine ⟨out, hstep.trans hout, ?_⟩
              simp [refKeep, hid, refDlOk, hnet, hlen]
            | some c =>
              by_cases hce : c = ""
              · subst hce
                have hstep : refLoop env fs ((n, Json.obj fields) :: List.enumFrom (n + 1) rest)
                    = refLoop env (fsWrite fs (defPath fields n) "")
                      (List.enumFrom (n + 1) rest) := by
                  simp [refLoop, defPath, defTitle, hid, Json.truthy, hsid, hval, download_pdf,
                    hdl, hnet]
                obtain ⟨out, hout, hlen⟩ := ih (n + 1) (fsWrite fs (defPath fields n) "") hrest
                refine ⟨out, hstep.trans hout, ?_⟩
                simp [refKeep, hid, refDlOk, hnet, hlen]
              · have hstep : refLoop env fs ((n, Json.obj fields) :: List.enumFrom (n + 1) rest)
                    = match refLoop env (fsWrite fs (defPath fields n) c)
                        (List.enumFrom (n + 1) rest) with
                      | Except.ok out =>
                        Except.ok ⟨defPath fields n :: out.paths,
                          defTitle fields n :: out.titles, out.fs⟩
                      | Except.error e => Except.error e := by
                  simp [refLoop, defPath, defTitle, hid, Json.truthy, hsid, hval, download_pdf,
                    hdl, hnet, hce]
                obtain ⟨out, hout, hlen⟩ := ih (n + 1) (fsWrite fs (defPath fields n) c) hrest
                refine ⟨⟨defPath fields n :: out.paths, defTitle fields n :: out.titles,
                  out.fs⟩, ?_, ?_⟩
                · rw [hstep, hout]
                · have hkeep : refKeep env (Json.obj fields) = true := by
                    simp [refKeep, hid, hsid, hval, refDlOk, hnet, hce]
                  simp [hkeep, hlen]
          · have hstep : refLoop env fs ((n, Json.obj fields) :: List.enumFrom (n + 1) rest)
                = refLoop env fs (List.enumFrom (n + 1) rest) := by
              simp [refLoop, hid, Json.truthy, hsid, hval]
            obtain ⟨out, hout, hlen⟩ := ih (n + 1) fs hrest
            refine ⟨out, hstep.trans hout, ?_⟩
            simp [refKeep, hid, hval, hlen]
      | null =>
        have hstep : refLoop env fs ((n, Json.obj fields) :: List.enumFrom (n + 1) rest)
            = refLoop env fs (List.enumFrom (n + 1) rest) := by
          simp [refLoop, hid, Json.truthy]
        obtain ⟨out, hout, hlen⟩ := ih (n + 1) fs hrest
        exact ⟨out, hstep.trans hout, by simp [refKeep, hid, hlen]⟩
      | bool b =>
        have ht : (Json.bool b).truthy = false := by
          simp only [refSafe, hid] at hr
          simpa using hr
        have hstep : refLoop env fs ((n, Json.obj fields) :: List.enumFrom (n + 1) rest)
            = refLoop env fs (List.enumFrom (n + 1) rest) := by
          simp [refLoop, hid, ht]
        obtain ⟨out, hout, hlen⟩ := ih (n + 1) fs hrest
        exact ⟨out, hstep.trans hout, by simp [refKeep, hid, hlen]⟩
      | num q =>
        have ht : (Json.num q).truthy = false := by
          simp only [refSafe, hid] at hr
          simpa using hr
        have hstep : refLoop env fs ((n, Json.obj fields) :: List.enumFrom (n + 1) rest)
            = refLoop env fs (List.enumFrom (n + 1) rest) := by
          simp [refLoop, hid, ht]
        obtain ⟨out, hout, hlen⟩ := ih (n + 1) fs hrest
        exact ⟨out, hstep.trans hout, by simp [refKeep, hid, hlen]⟩
      | arr items =>
        have ht : (Json.arr items).truthy = false := by
          simp only [refSafe, hid] at hr
          simpa using hr
        have hstep : refLoop env fs ((n, Json.obj fields) :: List.enumFrom (n + 1) rest)
            = refLoop env fs (List.enumFrom (n + 1) rest) := by
          simp [refLoop, hid, ht]
        obtain ⟨out, hout, hlen⟩ := ih (n + 1) fs hrest
        exact ⟨out, hstep.trans hout, by simp [refKeep, hid, hlen]⟩
      | obj fields2 =>
        have ht : (Json.obj fields2).truthy = false := by
          simp only [refSafe, hid] at hr
          simpa using hr
        have hstep : refLoop env fs ((n, Json.obj fields) :: List.enumFrom (n + 1) rest)
            = refLoop env fs (List.enumFrom (n + 1) rest) := by
          simp [refLoop, hid, ht]
        obtain ⟨out, hout, hlen⟩ := ih (n + 1) fs hrest
        exact ⟨out, hstep.trans hout, by simp [refKeep, hid, hlen]⟩
    | null => simp [refSafe] at hr
    | bool b => simp [refSafe] at hr
    | num q => simp [refSafe] at hr
    | str str => simp [refSafe] at hr
    | arr items => simp [refSafe] at hr

/-- The invariant of one completed download stage: never more downloaded
titles than resolved references. -/
theorem download_arxiv_dr_le (env : Env) (fs : Fs) (url : String)
    (po : Option String) (n : Nat) (dr : List Json) (fs2 : Fs)
    (h : download_arxiv_paper_and_citations env fs url = Except.ok ((po, n, dr), fs2)) :
    dr.length ≤ n := by
  unfold download_arxiv_paper_and_citations at h
  split at h
  · exact absurd h (by simp)
  · split at h
    · cases h
      exact Nat.le_refl 0
    · split at h
      · cases h
        exact Nat.le_refl 0
      · dsimp only at h
        split at h
        · cases h
          exact Nat.le_refl 0
        · split at h
          · exact absurd h (by simp)
          · rename_i j hrefs
            split at h
            · exact absurd h (by simp)
            · rename_i items hiter
              split at h
              · exact absurd h (by simp)
              · rename_i out hloop
                cases h
                calc out.titles.length
                    ≤ (List.enum items).length := refLoop_titles_le env _ _ _ hloop
                  _ = items.length := List.enum_length
                  _ = pyLenRefs j := pyIterRefs_length j items hiter

/-! ### Claim C1 -/

/-- Claim C1 counterexample: the primary download succeeds, yet the run
returns a pipeline-level failure, because a *throwing* LLM call in reference
resolution is not recovered locally — only unparseable JSON is. -/
theorem C1_pipeline_counterexample :
    envLlmDown.net "https://arxiv.org/pdf/1706.03762.pdf" = some "%PDF-main" ∧
    process_arxiv_paper envLlmDown emptyFs "https://arxiv.org/abs/1706.03762" =
      PipeResult.failure "Connection error" :=
  ⟨rfl, rfl⟩

/-- Claim C1 (amended): once the primary PDF download has succeeded and the
LLM calls themselves return, the run returns a successful result whenever
the resolver output is unparseable JSON — recovered locally as zero
references found — or parses to an array of shape-safe elements; but valid
JSON of the wrong shape is *not* recovered: a non-iterable reply (a number)
raises `TypeError` at the loop head, a non-empty JSON object is iterated as
its keys, whose `.get` raises `AttributeError`, and in both cases — as with
a throwing LLM call, per the counterexample — the exception propagates and
the run returns a pipeline-level failure. -/
theorem C1_pipeline_no_error_after_primary (env : Env) (fs : Fs) (url purl mc : String)
    (hx : extract_arxiv_pdf_url url = Except.ok (some purl))
    (hnet : env.net purl = some mc)
    (hllm : ∀ a, (env.create a).isOk = true) :
    ((∀ s, env.jparseRefs s = none) →
      (process_arxiv_paper env fs url).isSuccess = true ∧
      (process_arxiv_paper env fs url).numRefs = 0) ∧
    (∀ items : List Json, extract_references_with_llm env mc = Except.ok (Json.arr items) →
      (∀ r ∈ items, refSafe r = true) →
      (process_arxiv_paper env fs url).isSuccess = true ∧
      (process_arxiv_paper env fs url).numRefs = items.length) ∧
    (∀ q : ℚ, extract_references_with_llm env mc = Except.ok (Json.num q) →
      process_arxiv_paper env fs url =
        PipeResult.failure "TypeError: int object is not iterable") ∧
    (∀ (key : String) (v : Json) (restf : List (String × Json)),
      extract_references_with_llm env mc = Except.ok (Json.obj ((key, v) :: restf)) →
      process_arxiv_paper env fs url = PipeResult.failure "AttributeError: get") := by
  refine ⟨fun hjp => ?_, fun items hrefs hsafe => ?_, fun q hrefs => ?_,
    fun key v restf hrefs => ?_⟩
  · have hnil := extract_refs_nil env mc hllm hjp
    have hp := process_success_of env fs url purl mc (Json.arr []) [] _ hx hnet hnil rfl rfl
    exact ⟨hp.1, by simpa using hp.2.1⟩
  · obtain ⟨out, hloop, _⟩ := refLoop_safe_count env items 0
      (fsWrite fs "downloads/main_paper.pdf" mc) hsafe
    have hp := process_success_of env fs url purl mc (Json.arr items) items out hx hnet
      hrefs rfl hloop
    exact ⟨hp.1, by simpa using hp.2.1⟩
  · exact process_failure_of env fs url _
      (download_arxiv_iter_err env fs url purl mc (Json.num q) _ hx hnet hrefs rfl)
  · exact process_failure_of env fs url _
      (download_arxiv_loop_err env fs url purl mc (Json.obj ((key, v) :: restf))
        (((key, v) :: restf).map (fun f : String × Json => Json.str f.1)) _ hx hnet hrefs
        rfl rfl)

/-- Claim C1 amended witness: with returning LLM calls, unparseable resolver
output yields a successful run with zero references, while output parsing to
the number `123` yields a pipeline-level `TypeError` failure. -/
theorem C1_pipeline_no_error_after_primary_witness :
    envLlmProse.net "https://arxiv.org/pdf/1706.03762.pdf" = some "%PDF-main" ∧
    (process_arxiv_paper envLlmProse emptyFs "https://arxiv.org/abs/1706.03762").isSuccess
      = true ∧
    (process_arxiv_paper envLlmProse emptyFs "https://arxiv.org/abs/1706.03762").numRefs = 0 ∧
    envLlmNumber.net "https://arxiv.org/pdf/1706.03762.pdf" = some "%PDF-main" ∧
    process_arxiv_paper envLlmNumber emptyFs "https://arxiv.org/abs/1706.03762" =
      PipeResult.failure "TypeError: int object is not iterable" :=
  ⟨rfl,
   ((C1_pipeline_no_error_after_primary envLlmProse emptyFs "https://arxiv.org/abs/1706.03762"
     "https://arxiv.org/pdf/1706.03762.pdf" "%PDF-main" rfl rfl (fun _ => rfl)).1
     (fun _ => rfl)).1,
   ((C1_pipeline_no_error_after_primary envLlmProse emptyFs "https://arxiv.org/abs/1706.03762"
     "https://arxiv.org/pdf/1706.03762.pdf" "%PDF-main" rfl rfl (fun _ => rfl)).1
     (fun _ => rfl)).2,
   rfl,
   (C1_pipeline_no_error_after_primary envLlmNumber emptyFs "https://arxiv.org/abs/1706.03762"
     "https://arxiv.org/pdf/1706.03762.pdf" "%PDF-main" rfl rfl (fun _ => rfl)).2.2.1
     123 rfl⟩

/-! ### Claim C2 -/

/-- Claim C2: (1) after any completed download stage, `downloaded_references`
never exceeds `num_references`; (2) when all N resolver entries carry valid
ids and exactly one of the N reference downloads fails while the others
succeed, the run completes without pipeline-level failure with exactly N−1
entries in `downloaded_references`. -/
theorem C2_downloaded_refs_invariant :
    (∀ env fs url,
      match download_arxiv_paper_and_citations env fs url with
      | Except.ok ((_, n, dr), _) => dr.length ≤ n
      | Except.error _ => True) ∧
    (∀ env fs url purl mc items l1 rbad l2 fbad bid,
      extract_arxiv_pdf_url url = Except.ok (some purl) →
      env.net purl = some mc →
      extract_references_with_llm env mc = Except.ok (Json.arr items) →
      items = l1 ++ rbad :: l2 →
      (∀ r ∈ l1, refKeep env r = true) →
      (∀ r ∈ l2, refKeep env r = true) →
      rbad = Json.obj fbad →
      (jsonGet fbad "ID").getD Json.null = Json.str bid →
      (bid ≠ "" && is_valid_arxiv_id bid) = true →
      refDlOk env bid = false →
      (process_arxiv_paper env fs url).isSuccess = true ∧
      (process_arxiv_paper env fs url).numRefs = items.length ∧
      (process_arxiv_paper env fs url).downloadedRefs.length = items.length - 1) := by
  constructor
  · intro env fs url
    cases h : download_arxiv_paper_and_citations env fs url with
    | error e => trivial
    | ok out =>
      obtain ⟨⟨po, n, dr⟩, fs2⟩ := out
      exact download_arxiv_dr_le env fs url po n dr fs2 h
  · intro env fs url purl mc items l1 rbad l2 fbad bid hx hnet hrefs hsplit h1 h2 hbadobj
      hbadid hbadvalid hbaddl
    have hbadsafe : refSafe rbad = true := by
      simp [refSafe, hbadobj, hbadid]
    have hbad : refKeep env rbad = false := by
      have hvp : ¬bid = "" ∧ is_valid_arxiv_id bid = true := by simpa using hbadvalid
      simp [refKeep, hbadobj, hbadid, hvp, hbaddl]
    have hsafe : ∀ r ∈ items, refSafe r = true := by
      subst hsplit
      intro r hr
      rcases List.mem_append.mp hr with hr1 | hr2
      · exact refSafe_of_refKeep env r (h1 r hr1)
      · rcases List.mem_cons.mp hr2 with rfl | hr3
        · exact hbadsafe
        · exact refSafe_of_refKeep env r (h2 r hr3)
    obtain ⟨out, hloop, hcount⟩ := refLoop_safe_count env items 0
      (fsWrite fs "downloads/main_paper.pdf" mc) hsafe
    have hp := process_success_of env fs url purl mc (Json.arr items) items out hx hnet
      hrefs rfl hloop
    refine ⟨hp.1, by simpa using hp.2.1, ?_⟩
    rw [hp.2.2, hcount]
    subst hsplit
    rw [List.filter_append, List.filter_cons, hbad]
    rw [List.filter_eq_self.mpr h1, List.filter_eq_self.mpr h2]
    simp [List.length_append]

/-- Claim C2 witness: two resolved references with one injected download
failure yield a successful run with `num_references = 2` and exactly one
downloaded reference. -/
theorem C2_downloaded_refs_invariant_witness :
    (process_arxiv_paper envOneRefFails emptyFs "https://arxiv.org/abs/2401.00001").isSuccess
      = true ∧
    (process_arxiv_paper envOneRefFails emptyFs "https://arxiv.org/abs/2401.00001").numRefs
      = 2 ∧
    (process_arxiv_paper envOneRefFails emptyFs
      "https://arxiv.org/abs/2401.00001").downloadedRefs.length = 1 := by
  have h := C2_downloaded_refs_invariant.2 envOneRefFails emptyFs
    "https://arxiv.org/abs/2401.00001" "https://arxiv.org/pdf/2401.00001.pdf" "%PDF-main"
    [refA, refB] [refA] refB [] [("title", Json.str "B"), ("ID", Json.str "1409.0473")]
    "1409.0473" rfl rfl rfl rfl
    (by intro r hr; rw [List.mem_singleton] at hr; subst hr; rfl)
    (by intro r hr; exact absurd hr (List.not_mem_nil r))
    rfl rfl (by decide) rfl
  exact ⟨h.1, h.2.1, h.2.2⟩

end AINav
